import Mathlib

/-!
Verification of the material animation module (amethyst_animation/src/material.rs).

The module provides:
* a bidirectional registry between indices and texture handles
  (the MaterialTextureSet with its two hash maps),
* a sampler primitive type whose arithmetic capability methods all fail
  fatally (the InterpolationPrimitive implementation),
* a closed set of fourteen animatable channels, and
* the sampling protocol (apply_sample / current_sample /
  default_primitive / blend_method) dispatching over those channels.

Modelling conventions: hash maps become partial maps Nat to Option;
texture handles are opaque references modelled as natural numbers;
a fatal, unrecoverable failure in the code becomes the value none of
an Option result, while a normal return becomes some; f32 offset scalars
are only ever stored and copied by this module (every arithmetic method
on the primitive type fails before touching them), so they are modelled
by a carrier with decidable equality.
-/

/-- Texture handles are opaque resource references; modelled as naturals. -/
abbrev Handle := Nat

/-- Offset scalars are f32 in the source; the module only stores and copies
them (no arithmetic path is reachable), so a rational carrier is adequate. -/
abbrev F32 := Rat

/-- MaterialTextureSet: a forward map textures (index to handle) and an
inverse map texture_inverse (handle to index), both hash maps in the source,
modelled as partial maps. -/
structure MaterialTextureSet where
  textures : Nat → Option Handle
  texture_inverse : Handle → Option Nat

namespace MaterialTextureSet

/-- MaterialTextureSet::new — both maps empty. -/
def new : MaterialTextureSet :=
  ⟨fun _ => none, fun _ => none⟩

/-- MaterialTextureSet::handle — forward lookup of an index. -/
def handle (s : MaterialTextureSet) (i : Nat) : Option Handle :=
  s.textures i

/-- MaterialTextureSet::index — inverse lookup of a handle. -/
def index (s : MaterialTextureSet) (h : Handle) : Option Nat :=
  s.texture_inverse h

/-- MaterialTextureSet::insert — inserts into the forward map and into the
inverse map; neither map's stale entries for a displaced value are cleaned. -/
def insert (s : MaterialTextureSet) (i : Nat) (h : Handle) : MaterialTextureSet where
  textures := fun k => if k = i then some h else s.textures k
  texture_inverse := fun k => if k = h then some i else s.texture_inverse k

/-- MaterialTextureSet::remove — removes the index from the forward map and,
when it was bound to a handle, removes that handle from the inverse map. -/
def remove (s : MaterialTextureSet) (i : Nat) : MaterialTextureSet :=
  match s.textures i with
  | some h =>
      { textures := fun k => if k = i then none else s.textures k,
        texture_inverse := fun k => if k = h then none else s.texture_inverse k }
  | none => s

/-- MaterialTextureSet::clear — empties both maps. -/
def clear (_ : MaterialTextureSet) : MaterialTextureSet :=
  new

end MaterialTextureSet

/-- Sampler primitive for material animations: a texture index or a pair of
2D offset ranges. -/
inductive MaterialPrimitive where
  | Texture : Nat → MaterialPrimitive
  | Offset : F32 × F32 → F32 × F32 → MaterialPrimitive
deriving DecidableEq

namespace MaterialPrimitive

/-- InterpolationPrimitive::add for MaterialPrimitive — fails fatally. -/
def add (_ _ : MaterialPrimitive) : Option MaterialPrimitive :=
  none

/-- InterpolationPrimitive::sub for MaterialPrimitive — fails fatally. -/
def sub (_ _ : MaterialPrimitive) : Option MaterialPrimitive :=
  none

/-- InterpolationPrimitive::mul for MaterialPrimitive — fails fatally. -/
def mul (_ : MaterialPrimitive) (_ : F32) : Option MaterialPrimitive :=
  none

/-- InterpolationPrimitive::dot for MaterialPrimitive — fails fatally. -/
def dot (_ _ : MaterialPrimitive) : Option F32 :=
  none

/-- InterpolationPrimitive::magnitude2 for MaterialPrimitive — fails fatally. -/
def magnitude2 (_ : MaterialPrimitive) : Option F32 :=
  none

/-- InterpolationPrimitive::magnitude for MaterialPrimitive — fails fatally. -/
def magnitude (_ : MaterialPrimitive) : Option F32 :=
  none

/-- InterpolationPrimitive::normalize for MaterialPrimitive — fails fatally. -/
def normalize (_ : MaterialPrimitive) : Option MaterialPrimitive :=
  none

end MaterialPrimitive

/-- The fourteen channels animatable on a Material. -/
inductive MaterialChannel where
  | AlbedoTexture
  | AlbedoOffset
  | EmissionTexture
  | EmissionOffset
  | NormalTexture
  | NormalOffset
  | MetallicTexture
  | MetallicOffset
  | RoughnessTexture
  | RoughnessOffset
  | AmbientOcclusionTexture
  | AmbientOcclusionOffset
  | CaveatTexture
  | CaveatOffset
deriving DecidableEq

/-- TextureOffset (from the renderer crate): two ranges u and v. -/
structure TextureOffset where
  u : F32 × F32
  v : F32 × F32
deriving DecidableEq

/-- The fields of Material that this module reads and writes: one handle
field and one offset field per property group. -/
structure Material where
  albedo : Handle
  emission : Handle
  normal : Handle
  metallic : Handle
  roughness : Handle
  ambient_occlusion : Handle
  caveat : Handle
  albedo_offset : TextureOffset
  emission_offset : TextureOffset
  normal_offset : TextureOffset
  metallic_offset : TextureOffset
  roughness_offset : TextureOffset
  ambient_occlusion_offset : TextureOffset
  caveat_offset : TextureOffset
deriving DecidableEq

/-- Free function offset — wraps a TextureOffset field as a primitive. -/
def offset (o : TextureOffset) : MaterialPrimitive :=
  MaterialPrimitive.Offset o.u o.v

/-- Free function texture_offset — builds a TextureOffset from two ranges. -/
def texture_offset (u : F32 × F32) (v : F32 × F32) : TextureOffset :=
  ⟨u, v⟩

/-- BlendMethod from the animation core; only its existence matters here. -/
inductive BlendMethod where
  | Linear
deriving DecidableEq

/-- AnimationSampling::apply_sample for Material. A Texture channel with a
Texture primitive resolves the index through the registry and overwrites the
handle field only on success; an Offset channel with an Offset primitive
overwrites the offset field unconditionally; every mismatched combination
fails fatally (modelled as none). -/
def Material.apply_sample (m : Material) (channel : MaterialChannel)
    (data : MaterialPrimitive) (extra : MaterialTextureSet) : Option Material :=
  match channel, data with
  | .AlbedoTexture, .Texture i =>
      some (match extra.handle i with
            | some h => { m with albedo := h }
            | none => m)
  | .EmissionTexture, .Texture i =>
      some (match extra.handle i with
            | some h => { m with emission := h }
            | none => m)
  | .NormalTexture, .Texture i =>
      some (match extra.handle i with
            | some h => { m with normal := h }
            | none => m)
  | .MetallicTexture, .Texture i =>
      some (match extra.handle i with
            | some h => { m with metallic := h }
            | none => m)
  | .RoughnessTexture, .Texture i =>
      some (match extra.handle i with
            | some h => { m with roughness := h }
            | none => m)
  | .AmbientOcclusionTexture, .Texture i =>
      some (match extra.handle i with
            | some h => { m with ambient_occlusion := h }
            | none => m)
  | .CaveatTexture, .Texture i =>
      some (match extra.handle i with
            | some h => { m with caveat := h }
            | none => m)
  | .AlbedoOffset, .Offset u v =>
      some { m with albedo_offset := texture_offset u v }
  | .EmissionOffset, .Offset u v =>
      some { m with emission_offset := texture_offset u v }
  | .NormalOffset, .Offset u v =>
      some { m with normal_offset := texture_offset u v }
  | .MetallicOffset, .Offset u v =>
      some { m with metallic_offset := texture_offset u v }
  | .RoughnessOffset, .Offset u v =>
      some { m with roughness_offset := texture_offset u v }
  | .AmbientOcclusionOffset, .Offset u v =>
      some { m with ambient_occlusion_offset := texture_offset u v }
  | .CaveatOffset, .Offset u v =>
      some { m with caveat_offset := texture_offset u v }
  | _, _ => none

/-- AnimationSampling::current_sample for Material. A Texture channel reads
the handle field and resolves it through the inverse map, failing fatally
(none) when the handle is unregistered; an Offset channel wraps the offset
field. -/
def Material.current_sample (m : Material) (channel : MaterialChannel)
    (extra : MaterialTextureSet) : Option MaterialPrimitive :=
  match channel with
  | .AlbedoTexture => (extra.index m.albedo).map MaterialPrimitive.Texture
  | .EmissionTexture => (extra.index m.emission).map MaterialPrimitive.Texture
  | .NormalTexture => (extra.index m.normal).map MaterialPrimitive.Texture
  | .MetallicTexture => (extra.index m.metallic).map MaterialPrimitive.Texture
  | .RoughnessTexture => (extra.index m.roughness).map MaterialPrimitive.Texture
  | .AmbientOcclusionTexture =>
      (extra.index m.ambient_occlusion).map MaterialPrimitive.Texture
  | .CaveatTexture => (extra.index m.caveat).map MaterialPrimitive.Texture
  | .AlbedoOffset => some (offset m.albedo_offset)
  | .EmissionOffset => some (offset m.emission_offset)
  | .NormalOffset => some (offset m.normal_offset)
  | .MetallicOffset => some (offset m.metallic_offset)
  | .RoughnessOffset => some (offset m.roughness_offset)
  | .AmbientOcclusionOffset => some (offset m.ambient_occlusion_offset)
  | .CaveatOffset => some (offset m.caveat_offset)

/-- AnimationSampling::default_primitive for Material — fails fatally for
every channel. -/
def Material.default_primitive (_ : MaterialChannel) : Option MaterialPrimitive :=
  none

/-- AnimationSampling::blend_method for Material — always None. -/
def Material.blend_method (_ : Material) (_ : MaterialChannel) : Option BlendMethod :=
  none

/-- Whether a channel is one of the seven Texture channels. -/
def MaterialChannel.isTexture : MaterialChannel → Bool
  | .AlbedoTexture | .EmissionTexture | .NormalTexture | .MetallicTexture
  | .RoughnessTexture | .AmbientOcclusionTexture | .CaveatTexture => true
  | _ => false

/-- The handle stored in the field addressed by a Texture channel; none on
Offset channels. -/
def Material.texture_ref (m : Material) : MaterialChannel → Option Handle
  | .AlbedoTexture => some m.albedo
  | .EmissionTexture => some m.emission
  | .NormalTexture => some m.normal
  | .MetallicTexture => some m.metallic
  | .RoughnessTexture => some m.roughness
  | .AmbientOcclusionTexture => some m.ambient_occlusion
  | .CaveatTexture => some m.caveat
  | _ => none

/-- A channel and a primitive agree in shape when a Texture channel meets a
Texture primitive or an Offset channel meets an Offset primitive. -/
def MaterialChannel.shape_matches (ch : MaterialChannel) : MaterialPrimitive → Bool
  | .Texture _ => ch.isTexture
  | .Offset _ _ => !ch.isTexture

/-- One registry mutation: insert, remove, or clear. -/
inductive RegOp where
  | ins : Nat → Handle → RegOp
  | rem : Nat → RegOp
  | clr : RegOp

/-- Runs a sequence of registry mutations from a starting registry. -/
def runOps (s : MaterialTextureSet) : List RegOp → MaterialTextureSet
  | [] => s
  | RegOp.ins i h :: ops => runOps (s.insert i h) ops
  | RegOp.rem i :: ops => runOps (s.remove i) ops
  | RegOp.clr :: ops => runOps s.clear ops

/-- The consistency property of the two maps: an index maps forward to a
handle exactly when that handle maps back to that index. -/
def Consistent (s : MaterialTextureSet) : Prop :=
  ∀ i h, s.handle i = some h ↔ s.index h = some i

/-- Whether every insert in the sequence binds an index not currently bound
and a handle not currently registered (no overwriting, no duplicated handle). -/
def freshOps (s : MaterialTextureSet) : List RegOp → Bool
  | [] => true
  | RegOp.ins i h :: ops =>
      (s.textures i).isNone && (s.texture_inverse h).isNone &&
        freshOps (s.insert i h) ops
  | RegOp.rem i :: ops => freshOps (s.remove i) ops
  | RegOp.clr :: ops => freshOps s.clear ops

/-- A concrete material used as input for the sample-level witnesses. -/
def m0 : Material :=
  { albedo := 0, emission := 0, normal := 0, metallic := 0, roughness := 0,
    ambient_occlusion := 0, caveat := 0,
    albedo_offset := ⟨(0, 0), (0, 0)⟩, emission_offset := ⟨(0, 0), (0, 0)⟩,
    normal_offset := ⟨(0, 0), (0, 0)⟩, metallic_offset := ⟨(0, 0), (0, 0)⟩,
    roughness_offset := ⟨(0, 0), (0, 0)⟩,
    ambient_occlusion_offset := ⟨(0, 0), (0, 0)⟩,
    caveat_offset := ⟨(0, 0), (0, 0)⟩ }

/-- The empty registry is consistent. -/
theorem consistent_new : Consistent MaterialTextureSet.new := by
  intro i h
  simp [MaterialTextureSet.new, MaterialTextureSet.handle, MaterialTextureSet.index]

/-- Inserting an unbound index with an unregistered handle preserves
consistency of the two maps. -/
theorem consistent_insert {s : MaterialTextureSet} {i : Nat} {h : Handle}
    (hc : Consistent s) (hf : s.textures i = none) (hi : s.texture_inverse h = none) :
    Consistent (s.insert i h) := by
  have hc' : ∀ a b, s.textures a = some b ↔ s.texture_inverse b = some a := hc
  intro j k
  show (if j = i then some h else s.textures j) = some k ↔
    (if k = h then some i else s.texture_inverse k) = some j
  by_cases hji : j = i
  · by_cases hkh : k = h
    · subst hji
      subst hkh
      simp
    · rw [if_pos hji, if_neg hkh]
      constructor
      · intro hk
        exact absurd (Option.some.inj hk).symm hkh
      · intro hk
        have hjk := (hc' j k).mpr hk
        rw [hji, hf] at hjk
        exact Option.noConfusion hjk
  · by_cases hkh : k = h
    · rw [if_neg hji, if_pos hkh]
      constructor
      · intro hk
        have hjk := (hc' j k).mp hk
        rw [hkh, hi] at hjk
        exact Option.noConfusion hjk
      · intro hk
        exact absurd (Option.some.inj hk) (fun e => hji e.symm)
    · rw [if_neg hji, if_neg hkh]
      exact hc' j k

/-- Removing any index preserves consistency of the two maps. -/
theorem consistent_remove {s : MaterialTextureSet} (i : Nat)
    (hc : Consistent s) : Consistent (s.remove i) := by
  have hc' : ∀ a b, s.textures a = some b ↔ s.texture_inverse b = some a := hc
  unfold MaterialTextureSet.remove
  cases hfi : s.textures i with
  | none => exact hc
  | some h0 =>
    intro j k
    show (if j = i then none else s.textures j) = some k ↔
      (if k = h0 then none else s.texture_inverse k) = some j
    constructor
    · intro hj
      by_cases hji : j = i
      · rw [if_pos hji] at hj
        exact Option.noConfusion hj
      · rw [if_neg hji] at hj
        have hk := (hc' j k).mp hj
        by_cases hkh : k = h0
        · have hii := (hc' i h0).mp hfi
          rw [hkh] at hk
          rw [hk] at hii
          exact absurd (Option.some.inj hii) hji
        · rw [if_neg hkh]
          exact hk
    · intro hj
      by_cases hkh : k = h0
      · rw [if_pos hkh] at hj
        exact Option.noConfusion hj
      · rw [if_neg hkh] at hj
        have hk := (hc' j k).mpr hj
        by_cases hji : j = i
        · rw [hji, hfi] at hk
          exact absurd (Option.some.inj hk).symm hkh
        · rw [if_neg hji]
          exact hk

/-- Running a sequence of fresh mutations from a consistent registry keeps
the two maps consistent. -/
theorem consistent_runOps (ops : List RegOp) :
    ∀ s : MaterialTextureSet, Consistent s → freshOps s ops = true →
      Consistent (runOps s ops) := by
  induction ops with
  | nil => exact fun s hc _ => hc
  | cons op ops ih =>
    intro s hc hfr
    cases op with
    | ins i h =>
      simp only [freshOps, Bool.and_eq_true, Option.isNone_iff_eq_none] at hfr
      obtain ⟨⟨hf, hi⟩, hrest⟩ := hfr
      exact ih _ (consistent_insert hc hf hi) hrest
    | rem i => exact ih _ (consistent_remove i hc) hfr
    | clr => exact ih _ consistent_new hfr

/-- C1 fails as stated: from the empty registry, insert(0, 1) then
insert(0, 2) leaves the stale inverse entry for handle 1, so lookup_index(1)
is 0 while lookup_reference(0) is 2, breaking the claimed equivalence. -/
theorem c1_registry_consistency_counterexample :
    ¬ Consistent (runOps MaterialTextureSet.new [RegOp.ins 0 1, RegOp.ins 0 2]) :=
  fun h => absurd ((h 0 1).mpr (by decide)) (by decide)

/-- C1 (amended): for every sequence of insert/remove/clear operations from
the empty registry in which every insert binds an index that is currently
unbound and a handle that is currently unregistered, the forward and inverse
maps are consistent: lookup_reference(i) = r holds iff lookup_index(r) = i. -/
theorem c1_registry_consistency (ops : List RegOp)
    (hfr : freshOps MaterialTextureSet.new ops = true) :
    Consistent (runOps MaterialTextureSet.new ops) :=
  consistent_runOps ops MaterialTextureSet.new consistent_new hfr

/-- Witness for C1 (amended) at a concrete fresh operation sequence. -/
theorem c1_registry_consistency_witness :
    freshOps MaterialTextureSet.new
        [RegOp.ins 0 5, RegOp.ins 1 6, RegOp.rem 0, RegOp.clr, RegOp.ins 2 7] = true ∧
      Consistent (runOps MaterialTextureSet.new
        [RegOp.ins 0 5, RegOp.ins 1 6, RegOp.rem 0, RegOp.clr, RegOp.ins 2 7]) :=
  ⟨by decide, c1_registry_consistency _ (by decide)⟩

/-- C2: inserting twice at the same index with distinct handles makes the
forward lookup return the second handle while the inverse lookup of the first
handle still returns the index (the stale inverse entry survives). -/
theorem c2_overwrite_asymmetry (s : MaterialTextureSet) (i : Nat)
    (r1 r2 : Handle) (hne : r1 ≠ r2) :
    ((s.insert i r1).insert i r2).handle i = some r2 ∧
      ((s.insert i r1).insert i r2).index r1 = some i := by
  constructor
  · simp [MaterialTextureSet.insert, MaterialTextureSet.handle]
  · simp [MaterialTextureSet.insert, MaterialTextureSet.index, hne]

/-- Witness for C2 at concrete inputs. -/
theorem c2_overwrite_asymmetry_witness :
    ((MaterialTextureSet.new.insert 4 1).insert 4 2).handle 4 = some 2 ∧
      ((MaterialTextureSet.new.insert 4 1).insert 4 2).index 1 = some 4 :=
  c2_overwrite_asymmetry MaterialTextureSet.new 4 1 2 (by decide)

/-- C7: immediately after insert(i, r), the forward lookup of i returns r
and the inverse lookup of r returns i, from any starting registry. -/
theorem c7_insert_round_trip (s : MaterialTextureSet) (i : Nat) (r : Handle) :
    (s.insert i r).handle i = some r ∧ (s.insert i r).index r = some i := by
  constructor <;>
    simp [MaterialTextureSet.insert, MaterialTextureSet.handle,
      MaterialTextureSet.index]

/-- C10: after insert(i, r), insert(j, r) and remove(i) with distinct i and j,
the forward lookup of j still returns r but the inverse lookup of r returns
nothing: remove(i) deletes the inverse entry for r even though the inverse
map had last pointed r at j. -/
theorem c10_remove_deletes_shared_inverse (s : MaterialTextureSet)
    (i j : Nat) (r : Handle) (hij : i ≠ j) :
    (((s.insert i r).insert j r).remove i).handle j = some r ∧
      (((s.insert i r).insert j r).remove i).index r = none := by
  have hfi : ((s.insert i r).insert j r).textures i = some r := by
    by_cases h : i = j <;> simp [MaterialTextureSet.insert, h]
  unfold MaterialTextureSet.remove
  rw [hfi]
  constructor
  · simp [MaterialTextureSet.handle, MaterialTextureSet.insert, Ne.symm hij]
  · simp [MaterialTextureSet.index]

/-- Witness for C10 at concrete inputs. -/
theorem c10_remove_deletes_shared_inverse_witness :
    (((MaterialTextureSet.new.insert 0 9).insert 1 9).remove 0).handle 1 = some 9 ∧
      (((MaterialTextureSet.new.insert 0 9).insert 1 9).remove 0).index 9 = none :=
  c10_remove_deletes_shared_inverse MaterialTextureSet.new 0 1 9 (by decide)

/-- C8: every numeric-capability operation on MaterialPrimitive fails
fatally, on either shape and with any argument. -/
theorem c8_arithmetic_fatal (p q : MaterialPrimitive) (c : F32) :
    p.add q = none ∧ p.sub q = none ∧ p.mul c = none ∧ p.dot q = none ∧
      p.magnitude2 = none ∧ p.magnitude = none ∧ p.normalize = none :=
  ⟨rfl, rfl, rfl, rfl, rfl, rfl, rfl⟩

/-- C9: default_primitive fails fatally for every channel, and blend_method
returns None for every material and channel. -/
theorem c9_no_blending (ch : MaterialChannel) (m : Material) :
    Material.default_primitive ch = none ∧ m.blend_method ch = none :=
  ⟨rfl, rfl⟩

/-- C4: writing a Texture primitive whose index is not bound in the registry
to any Texture channel leaves the material unchanged and signals no error
(a silent no-op: the result is some of the unchanged material). -/
theorem c4_unregistered_index_silent_noop (m : Material) (ch : MaterialChannel)
    (i : Nat) (reg : MaterialTextureSet) (ht : ch.isTexture = true)
    (hn : reg.handle i = none) :
    m.apply_sample ch (MaterialPrimitive.Texture i) reg = some m := by
  cases ch <;> simp [MaterialChannel.isTexture] at ht <;>
    simp [Material.apply_sample, hn]

/-- Witness for C4: empty registry, AlbedoTexture channel, index 5. -/
theorem c4_unregistered_index_silent_noop_witness :
    m0.apply_sample MaterialChannel.AlbedoTexture (MaterialPrimitive.Texture 5)
      MaterialTextureSet.new = some m0 :=
  c4_unregistered_index_silent_noop m0 MaterialChannel.AlbedoTexture 5
    MaterialTextureSet.new rfl rfl

/-- C5: on a Texture channel holding reference h, current_sample resolves h
through the registry's inverse map: when h is unregistered the result is the
fatal failure (none), and when h is bound to index i the result is
some (Texture i). -/
theorem c5_read_resolution (m : Material) (ch : MaterialChannel)
    (reg : MaterialTextureSet) (h : Handle) (hr : m.texture_ref ch = some h) :
    m.current_sample ch reg = (reg.index h).map MaterialPrimitive.Texture := by
  cases ch <;> simp [Material.texture_ref] at hr <;>
    simp [Material.current_sample, hr]

/-- Witness for C5: an unregistered reference fails fatally; a registered
reference resolves to its bound index. -/
theorem c5_read_resolution_witness :
    m0.current_sample MaterialChannel.AlbedoTexture MaterialTextureSet.new = none ∧
      m0.current_sample MaterialChannel.AlbedoTexture
        (MaterialTextureSet.new.insert 3 0) = some (MaterialPrimitive.Texture 3) :=
  ⟨(c5_read_resolution m0 MaterialChannel.AlbedoTexture MaterialTextureSet.new
      0 rfl).trans rfl,
    (c5_read_resolution m0 MaterialChannel.AlbedoTexture
      (MaterialTextureSet.new.insert 3 0) 0 rfl).trans rfl⟩

/-- C6: apply_sample fails fatally (none) exactly on the mismatched
channel/primitive shape combinations, and succeeds (some) on every matching
combination, so the fatal branch is unreachable under the matching-shape
precondition. -/
theorem c6_shape_mismatch_fatal (m : Material) (reg : MaterialTextureSet)
    (ch : MaterialChannel) (p : MaterialPrimitive) :
    (ch.shape_matches p = false → m.apply_sample ch p reg = none) ∧
      (ch.shape_matches p = true → ∃ m', m.apply_sample ch p reg = some m') := by
  cases ch <;> cases p <;>
    simp [MaterialChannel.shape_matches, MaterialChannel.isTexture,
      Material.apply_sample]

/-- Witness for C6: an Offset channel with a Texture primitive fails
fatally; the matching combination succeeds. -/
theorem c6_shape_mismatch_fatal_witness :
    m0.apply_sample MaterialChannel.AlbedoOffset (MaterialPrimitive.Texture 0)
      MaterialTextureSet.new = none ∧
      ∃ m', m0.apply_sample MaterialChannel.AlbedoTexture
        (MaterialPrimitive.Texture 0) MaterialTextureSet.new = some m' :=
  ⟨(c6_shape_mismatch_fatal m0 MaterialTextureSet.new MaterialChannel.AlbedoOffset
      (MaterialPrimitive.Texture 0)).1 rfl,
    (c6_shape_mismatch_fatal m0 MaterialTextureSet.new MaterialChannel.AlbedoTexture
      (MaterialPrimitive.Texture 0)).2 rfl⟩

/-- C3: with the registry binding index i to reference r and r resolving
back to i, apply_sample of Texture i on a Texture channel followed by
current_sample on the same channel returns Texture i. -/
theorem c3_texture_round_trip (m : Material) (ch : MaterialChannel)
    (i : Nat) (r : Handle) (reg : MaterialTextureSet)
    (ht : ch.isTexture = true) (h1 : reg.handle i = some r)
    (h2 : reg.index r = some i) :
    (m.apply_sample ch (MaterialPrimitive.Texture i) reg).bind
      (fun m' => m'.current_sample ch reg) =
      some (MaterialPrimitive.Texture i) := by
  cases ch <;> simp [MaterialChannel.isTexture] at ht <;>
    simp [Material.apply_sample, Material.current_sample, h1, h2]

/-- Witness for C3: registry binding 3 to 7, AlbedoTexture channel. -/
theorem c3_texture_round_trip_witness :
    (m0.apply_sample MaterialChannel.AlbedoTexture (MaterialPrimitive.Texture 3)
        (MaterialTextureSet.new.insert 3 7)).bind
      (fun m' => m'.current_sample MaterialChannel.AlbedoTexture
        (MaterialTextureSet.new.insert 3 7)) =
      some (MaterialPrimitive.Texture 3) :=
  c3_texture_round_trip m0 MaterialChannel.AlbedoTexture 3 7
    (MaterialTextureSet.new.insert 3 7) rfl rfl rfl
